import Mathlib

/-!
Shallow embedding of `modules/parallel_agents.py` from the
openstack-spot-manager repository, together with theorems settling the
frozen claims about its cache, classifier, reconciler and patchers.

Python dicts are modelled as association lists (`List (String × α)`) whose
order mirrors insertion order; Python sets used only for membership tests
are modelled as `List String` queried with `List.contains`.  Host-detail
dicts and NetBox device records are modelled by one record type `HostRec`
carrying the union of their fields (fields a given dict shape does not
have keep their default value and are never read on that shape).
-/

namespace SpotManager

/-- The `gpu_info` sub-dict `{gpu_used, gpu_capacity, gpu_usage_ratio}`. -/
structure GpuInfo where
  gpu_used : Nat
  gpu_capacity : Nat
  gpu_usage_ratio : String
deriving DecidableEq

/-- A value of the NetBox agent's `active_devices` dict: the fields of it
that `organize_parallel_results` consumes as `tenant_info`. -/
structure TenantInfo where
  tenant : String
  owner_group : String
  nvlinks : Bool
deriving DecidableEq

/-- One host record: the union of the fields of the `host_detail` dicts
built in `organize_parallel_results` and of the NetBox device records that
populate the out-of-stock bucket. -/
structure HostRec where
  hostname : String
  aggregate : Option String
  tenant : String
  owner_group : String
  nvlinks : Bool
  vm_count : Nat
  gpu_used : Nat
  gpu_capacity : Nat
  gpu_usage_ratio : String
  status : String
  status_label : String
  is_gpu_server : Bool
  outofstock_reason : Option String
deriving DecidableEq

/-- One value of the organized cache dict: its `hosts` list, its
`total_hosts` key when present (GPU-type buckets) and its `device_count`
key when present (the out-of-stock bucket). -/
structure Bucket where
  hosts : List HostRec
  totalHosts : Option Int
  deviceCount : Option Nat
deriving DecidableEq

/-- The organized snapshot: the cache dict mapping GPU type (or
`"outofstock"`) to its bucket. -/
abbrev Cache := List (String × Bucket)

/-- The four category lists of `compute_comprehensive_outofstock_devices`,
in the insertion order of the Python `outofstock_categories` dict. -/
structure OosCats where
  netbox_non_active : List HostRec
  not_in_openstack : List HostRec
  in_tempest : List HostRec
  compute_disabled : List HostRec
deriving DecidableEq

/-- The per-GPU-type config dict built by
`classify_aggregates_by_gpu_type`: ondemand variants are pairs of
(aggregate name, variant display), contracts keep the aggregate name. -/
structure GpuConfig where
  ondemand_variants : List (String × String)
  spot : Option String
  runpod : Option String
  contracts : List String
deriving DecidableEq

/-- The joined result dict of the five collector agents, as consumed by
`organize_parallel_results`.  A failed agent contributes empty data. -/
structure AgentResults where
  allDevices : List (String × HostRec)
  activeDevices : List (String × TenantInfo)
  hostToAggregate : List (String × String)
  aggregateToHosts : List (String × List String)
  aggNames : List String
  vmCounts : List (String × Nat)
  gpuInfo : List (String × GpuInfo)
  disabledHosts : List String
deriving DecidableEq

/-- The module-level cache state: `_parallel_cache[cache_key]` and
`_cache_timestamps[cache_key]` (each possibly absent). -/
structure CacheState where
  cache : Option Cache
  timestamp : Option Int
deriving DecidableEq

/-- Association-list lookup, mirroring Python `dict.get`. -/
def alookup (k : String) : List (String × α) → Option α
  | [] => none
  | (k₂, v) :: rest => if k₂ = k then some v else alookup k rest

/-- Python `dict.get(k, d)`. -/
def alookupD (k : String) (l : List (String × α)) (d : α) : α :=
  (alookup k l).getD d

/-- Python `dict[k] = v`: replace in place if the key exists, append
otherwise. -/
def dictInsert (k : String) (v : α) : List (String × α) → List (String × α)
  | [] => [(k, v)]
  | (k₂, w) :: rest =>
    if k₂ = k then (k, v) :: rest else (k₂, w) :: dictInsert k v rest

/-! ## Incremental patchers (`update_host_vm_count_in_cache`,
`update_host_aggregate_in_cache`) -/

/-- The inner loop of `update_host_vm_count_in_cache` over one bucket's
`hosts` list: set `vm_count` on every record whose `hostname` matches,
counting the updates. -/
def updateVmHosts (h : String) (n : Nat) : List HostRec → List HostRec × Nat
  | [] => ([], 0)
  | r :: rest =>
    let step := updateVmHosts h n rest
    if r.hostname = h then ({ r with vm_count := n } :: step.1, step.2 + 1)
    else (r :: step.1, step.2)

/-- The bucket loop of `update_host_vm_count_in_cache`: every bucket's
hosts are updated and the per-bucket update counts are accumulated. -/
def vmCountFold (hostname : String) (n : Nat) (c : Cache) : Cache × Nat :=
  c.foldr
    (fun p acc =>
      ((p.1, { p.2 with hosts := (updateVmHosts hostname n p.2.hosts).1 }) :: acc.1,
       acc.2 + (updateVmHosts hostname n p.2.hosts).2))
    ([], 0)

/-- The patcher `update_host_vm_count_in_cache(hostname, new_vm_count)`: walk every
bucket that has a `hosts` list (in this snapshot shape, all of them),
update `vm_count` on every record for `hostname`, and return whether at
least one record was updated.  With no cached data it returns `False`. -/
def update_host_vm_count_in_cache (cache : Option Cache) (hostname : String)
    (n : Nat) : Bool × Option Cache :=
  match cache with
  | none => (false, none)
  | some c =>
    (decide (0 < (vmCountFold hostname n c).2), some (vmCountFold hostname n c).1)

/-- The removal scan of `update_host_aggregate_in_cache` inside one
bucket: pop the first record matching both the hostname and the old
aggregate (the Python inner loop breaks after the first `pop`). -/
def popFirstMatch (h a : String) : List HostRec → Option HostRec × List HostRec
  | [] => (none, [])
  | r :: rest =>
    if r.hostname = h ∧ r.aggregate = some a then (some r, rest)
    else
      let step := popFirstMatch h a rest
      (step.1, r :: step.2)

/-- The removal phase of `update_host_aggregate_in_cache`: every bucket
pops its first matching record and decrements its `total_hosts` key when
it has one; the Python loop keeps overwriting `host_data_to_move`, so the
record carried forward is the one popped from the last matching bucket,
with its `aggregate` field already rewritten to the new aggregate. -/
def removePhase (h a b : String) : Cache → Option HostRec × Cache
  | [] => (none, [])
  | (g, bu) :: rest =>
    let tail := removePhase h a b rest
    match popFirstMatch h a bu.hosts with
    | (some r, hs) =>
      (match tail.1 with
       | some x => some x
       | none => some { r with aggregate := some b },
       (g, { bu with hosts := hs,
                     totalHosts := bu.totalHosts.map (fun t => t - 1) }) :: tail.2)
    | (none, _) => (tail.1, (g, bu) :: tail.2)

/-- The insertion phase of `update_host_aggregate_in_cache`: append the
moved record to the first bucket already containing a record whose
`aggregate` equals the new aggregate, incrementing its `total_hosts` key;
`none` when no bucket owns the destination aggregate. -/
def insertPhase (moved : HostRec) (b : String) : Cache → Option Cache
  | [] => none
  | (g, bu) :: rest =>
    if bu.hosts.any (fun r => r.aggregate = some b) then
      some ((g, { bu with hosts := bu.hosts ++ [moved],
                          totalHosts := bu.totalHosts.map (fun t => t + 1) }) :: rest)
    else
      match insertPhase moved b rest with
      | some rest₂ => some ((g, bu) :: rest₂)
      | none => none

/-- The patcher `update_host_aggregate_in_cache(hostname, old_aggregate,
new_aggregate)`: remove the record from its current bucket, rewrite its
`aggregate` field, then append it to whichever bucket currently owns the
destination aggregate.  Returns `False` when there is no cached data, no
matching record, or no destination bucket — in the last case the removal
already performed is kept. -/
def update_host_aggregate_in_cache (cache : Option Cache)
    (hostname oldAgg newAgg : String) : Bool × Option Cache :=
  match cache with
  | none => (false, none)
  | some c =>
    match removePhase hostname oldAgg newAgg c with
    | (none, c₁) => (false, some c₁)
    | (some moved, c₁) =>
      match insertPhase moved newAgg c₁ with
      | some c₂ => (true, some c₂)
      | none => (false, some c₁)

/-! ## Aggregate-name classification (`classify_aggregates_by_gpu_type`) -/

/-- A character of the regex class `[A-Z0-9-]`. -/
def isBaseChar (c : Char) : Bool :=
  if ('A' ≤ c ∧ c ≤ 'Z') ∨ ('0' ≤ c ∧ c ≤ '9') ∨ c = '-' then true else false

/-- Substring test (`needle in hay` on strings, as lists of chars). -/
def containsSub (needle : List Char) : List Char → Bool
  | [] => needle.isPrefixOf []
  | c :: rest => needle.isPrefixOf (c :: rest) || containsSub needle rest

/-- The tail of pattern 1 after the mandatory `-n3`: the optional capture
`(-NVLink)?` followed by the optional capture `(-spot|-runpod)?` and the
end anchor; returns the two captured groups. -/
def parsePoolSuffix : List Char → Option (Option String)
  | [] => some none
  | cs =>
    if cs = ("-spot").toList then some (some ("-spot"))
    else if cs = ("-runpod").toList then some (some ("-runpod"))
    else none

/-- Parse what follows the captured base of pattern 1: the literal `-n3`,
then `(-NVLink)?(-spot|-runpod)?$`. -/
def parseAfterN3 (cs : List Char) : Option (Option String × Option String) :=
  if ("-n3").toList.isPrefixOf cs then
    let rest := cs.drop 3
    if ("-NVLink").toList.isPrefixOf rest then
      match parsePoolSuffix (rest.drop 7) with
      | some p => some (some ("-NVLink"), p)
      | none => none
    else
      match parsePoolSuffix rest with
      | some p => some (none, p)
      | none => none
  else none

/-- The greedy match of `^([A-Z0-9-]+)-n3(-NVLink)?(-spot|-runpod)?$`:
among all prefixes made of `[A-Z0-9-]` characters whose remainder parses,
the regex engine's backtracking selects the longest, which the ascending
fold's last successful overwrite realises. -/
def matchGpuAggregate (name : String) : Option (String × Option String × Option String) :=
  let cs := name.toList
  (List.range cs.length).foldl
    (fun acc k =>
      let base := cs.take (k + 1)
      if base.all isBaseChar then
        match parseAfterN3 (cs.drop (k + 1)) with
        | some g => some (String.mk base, g.1, g.2)
        | none => acc
      else acc)
    none

/-- Pattern 2, `re.match` of `[Cc]ontract-` then `([^-]+)`: a `Contract-` or
`contract-` prefix followed by at least one character other than `-`. -/
def matchContract (name : String) : Bool :=
  let cs := name.toList
  (("Contract-").toList.isPrefixOf cs || ("contract-").toList.isPrefixOf cs) &&
  (match cs.drop 9 with
   | [] => false
   | c :: _ => decide (c ≠ '-'))

/-- The search for a `\d+x([A-Z0-9-]+)` occurrence: the leftmost `x` preceded
by a digit and followed by a `[A-Z0-9-]` character wins, and the capture
is the maximal class run after that `x`. -/
def searchDxType : List Char → Option String
  | [] => none
  | [_] => none
  | a :: c :: rest =>
    if a.isDigit && c = 'x' &&
        (match rest with
         | d :: _ => isBaseChar d
         | [] => false) then
      some (String.mk (rest.takeWhile isBaseChar))
    else searchDxType (c :: rest)

/-- The GPU type extracted from a contract aggregate name: the first of
the fixed candidate list occurring as a substring, else the `\d+x<TYPE>`
capture, else the declared default `A100`. -/
def contractGpuType (name : String) : String :=
  match [("H100" : String), "A100", "RTX-A6000", "L40", "A4000"].find?
      (fun g => containsSub g.toList name.toList) with
  | some g => g
  | none =>
    match searchDxType name.toList with
    | some t => t
    | none => "A100"

/-- A fresh per-GPU-type config dict. -/
def emptyConfig : GpuConfig :=
  { ondemand_variants := [], spot := none, runpod := none, contracts := [] }

/-- Python `gpu_aggregates[gpu_type] = fresh if absent; mutate a field`: update
the entry in place, or append a freshly initialised one. -/
def updateKey (k : String) (f : GpuConfig → GpuConfig) :
    List (String × GpuConfig) → List (String × GpuConfig)
  | [] => [(k, f emptyConfig)]
  | (k₂, c) :: rest =>
    if k₂ = k then (k₂, f c) :: rest else (k₂, c) :: updateKey k f rest

/-- Processing of one aggregate name in `classify_aggregates_by_gpu_type`:
pattern 1 fills the spot/runpod slot or appends an ondemand variant, then
pattern 2 (checked independently) appends a contract entry. -/
def classifyStep (d : List (String × GpuConfig)) (name : String) :
    List (String × GpuConfig) :=
  let d₁ :=
    match matchGpuAggregate name with
    | some (g, nv, pool) =>
      if pool = some ("-spot") then
        updateKey g (fun c => { c with spot := some name }) d
      else if pool = some ("-runpod") then
        updateKey g (fun c => { c with runpod := some name }) d
      else
        updateKey g
          (fun c => { c with ondemand_variants :=
            c.ondemand_variants ++ [(name, g ++ "-n3" ++ nv.getD "")] }) d
    | none => d
  if matchContract name then
    updateKey (contractGpuType name)
      (fun c => { c with contracts := c.contracts ++ [name] }) d₁
  else d₁

/-- The classifier `classify_aggregates_by_gpu_type`: fold the two naming patterns over
the aggregate names in dict order. -/
def classify_aggregates_by_gpu_type (names : List String) :
    List (String × GpuConfig) :=
  names.foldl classifyStep []

/-! ## Out-of-stock computation
(`compute_comprehensive_outofstock_devices`) -/

/-- Lower-case a name the way `agg_name.lower()` does before the
`'tempest' in …` test. -/
def lowerChars (s : String) : List Char :=
  s.toList.map Char.toLower

/-- The aggregate names containing `tempest` (case-insensitively). -/
def tempestAggNames (aggregateToHosts : List (String × List String)) :
    List (String × List String) :=
  aggregateToHosts.filter (fun p => containsSub ("tempest").toList (lowerChars p.1))

/-- The union of the host lists of all tempest aggregates. -/
def tempestHosts (aggregateToHosts : List (String × List String)) : List String :=
  ((tempestAggNames aggregateToHosts).map (fun p => p.2)).flatten

/-- The union of the host lists of all non-tempest (productive)
aggregates. -/
def productiveHosts (aggregateToHosts : List (String × List String)) : List String :=
  ((aggregateToHosts.filter
      (fun p => ! containsSub ("tempest").toList (lowerChars p.1))).map
    (fun p => p.2)).flatten

/-- One device step of the categorisation loop: the `if/elif` chain over
status, disabled compute service, tempest membership and productive
membership, appending the reason-tagged record to the matching category
(and skipping non-GPU devices and fully productive devices).  Membership
is tested on the dict key, exactly as the Python loop does. -/
def oosStep (tempest productive disabled : List String) (cats : OosCats)
    (p : String × HostRec) : OosCats :=
  let d := p.2
  if ¬ d.is_gpu_server then cats
  else if d.status ≠ "active" then
    { cats with netbox_non_active := cats.netbox_non_active ++
        [{ d with outofstock_reason := some ("NetBox Status: " ++ d.status_label) }] }
  else if disabled.contains p.1 then
    { cats with compute_disabled := cats.compute_disabled ++
        [{ d with outofstock_reason := some ("OpenStack compute service disabled") }] }
  else if tempest.contains p.1 then
    { cats with in_tempest := cats.in_tempest ++
        [{ d with outofstock_reason := some ("Testing/staging (tempest aggregate)") }] }
  else if ¬ productive.contains p.1 then
    { cats with not_in_openstack := cats.not_in_openstack ++
        [{ d with outofstock_reason := some ("Not allocated to any productive aggregate") }] }
  else cats

/-- The function `compute_comprehensive_outofstock_devices(all_netbox_devices,
host_to_aggregate, aggregate_to_hosts, disabled_hosts)`: split the
aggregates into tempest and productive, categorise every NetBox GPU
device, and return the concatenated out-of-stock list (in the category
dict's insertion order), the categories and their counts. -/
def compute_comprehensive_outofstock_devices (allDevices : List (String × HostRec))
    (aggregateToHosts : List (String × List String)) (disabledHosts : List String) :
    List HostRec × OosCats × List (String × Nat) :=
  let t := tempestHosts aggregateToHosts
  let pr := productiveHosts aggregateToHosts
  let cats := allDevices.foldl (oosStep t pr disabledHosts)
    { netbox_non_active := [], not_in_openstack := [], in_tempest := [], compute_disabled := [] }
  let allOos := cats.netbox_non_active ++ cats.not_in_openstack ++
    cats.in_tempest ++ cats.compute_disabled
  (allOos, cats,
    [("netbox_non_active", cats.netbox_non_active.length),
     ("not_in_openstack", cats.not_in_openstack.length),
     ("in_tempest", cats.in_tempest.length),
     ("compute_disabled", cats.compute_disabled.length)])

/-! ## Inventory reconciler (`validate_inventory_accountability`) -/

/-- One column of the reconciler's loop: the `device_count` of the
`outofstock` column (renamed `out_of_stock` in the breakdown), the
`total_hosts` of every other column, added into the running UI total. -/
def validateStep (acc : Int × List (String × Int)) (p : String × Bucket) :
    Int × List (String × Int) :=
  let count : Int :=
    if p.1 = "outofstock" then ((p.2.deviceCount.getD 0 : Nat) : Int)
    else p.2.totalHosts.getD 0
  (acc.1 + count,
   acc.2 ++ [((if p.1 = "outofstock" then "out_of_stock" else p.1), count)])

/-- The reconciler `validate_inventory_accountability(organized_results,
all_netbox_devices, netbox_inventory_stats)`: compare the NetBox GPU
server count against the sum of the per-column counts (`device_count` for
the `outofstock` column, `total_hosts` otherwise) and return the verdict
with the totals and the per-column breakdown; it only reports — the
organized snapshot is returned by its caller unconditionally. -/
def validate_inventory_accountability (organized : Cache)
    (allDevices : List (String × HostRec)) :
    Bool × Nat × Int × List (String × Int) :=
  let netboxTotal := (allDevices.filter (fun p => p.2.is_gpu_server)).length
  let step := organized.foldl validateStep (0, [])
  (decide ((netboxTotal : Int) = step.1), netboxTotal, step.1, step.2)

/-! ## Aggregation (`organize_parallel_results`) -/

/-- All hosts of one GPU type, in the collection order of the source:
runpod aggregate, then each ondemand variant, then the spot aggregate,
then each contract aggregate. -/
def configAllHosts (aggregateToHosts : List (String × List String))
    (c : GpuConfig) : List String :=
  (match c.runpod with
   | some a => alookupD a aggregateToHosts []
   | none => []) ++
  ((c.ondemand_variants.map (fun v => alookupD v.1 aggregateToHosts [])).flatten) ++
  (match c.spot with
   | some a => alookupD a aggregateToHosts []
   | none => []) ++
  ((c.contracts.map (fun a => alookupD a aggregateToHosts [])).flatten)

/-- One `host_detail` dict: hostname, its aggregate from the membership
map, tenant info from the active NetBox devices (with the literal
defaults), the VM count and the GPU info (with their defaults). -/
def mkHostDetail (hostToAggregate : List (String × String))
    (activeDevices : List (String × TenantInfo))
    (vmCounts : List (String × Nat)) (gpuInfo : List (String × GpuInfo))
    (h : String) : HostRec :=
  let t := alookupD h activeDevices
    { tenant := "Unknown", owner_group := "Investors", nvlinks := false }
  let g := alookupD h gpuInfo
    { gpu_used := 0, gpu_capacity := 8, gpu_usage_ratio := "0/8" }
  { hostname := h
    aggregate := alookup h hostToAggregate
    tenant := t.tenant
    owner_group := t.owner_group
    nvlinks := t.nvlinks
    vm_count := alookupD h vmCounts 0
    gpu_used := g.gpu_used
    gpu_capacity := g.gpu_capacity
    gpu_usage_ratio := g.gpu_usage_ratio
    status := ""
    status_label := ""
    is_gpu_server := false
    outofstock_reason := none }

/-- The GPU-type part of the organized snapshot: one bucket per
classified GPU type with its merged host details and `total_hosts`. -/
def organizedGpuBuckets (r : AgentResults) : Cache :=
  (classify_aggregates_by_gpu_type r.aggNames).map
    (fun p =>
      let hosts := (configAllHosts r.aggregateToHosts p.2).map
        (mkHostDetail r.hostToAggregate r.activeDevices r.vmCounts r.gpuInfo)
      (p.1, { hosts := hosts, totalHosts := some (hosts.length : Int),
              deviceCount := none }))

/-- The out-of-stock bucket added by `organize_parallel_results`. -/
def outofstockBucket (r : AgentResults) : Bucket :=
  let oos := (compute_comprehensive_outofstock_devices r.allDevices
    r.aggregateToHosts r.disabledHosts).1
  { hosts := oos, totalHosts := none, deviceCount := some oos.length }

/-- The aggregator `organize_parallel_results(results)`: classify the aggregates, build
one bucket per GPU type, add the out-of-stock bucket under the
`outofstock` key, run the inventory validation (whose verdict is
discarded) and return the organized dict. -/
def organize_parallel_results (r : AgentResults) : Cache :=
  let organized := dictInsert ("outofstock") (outofstockBucket r)
    (organizedGpuBuckets r)
  let _validation := validate_inventory_accountability organized r.allDevices
  organized

/-! ## TTL cache (`get_all_data_parallel`), sequential semantics.

The lock acquisition, the double-check after the lock and the 30 × 1 s
polling wait are inter-thread coordination: a single caller (the
sequential semantics proved about here) takes the cached value when both
the data and the timestamp are present and the age is below the TTL, and
otherwise runs the agents, organizes their results and publishes the
snapshot with the current timestamp.  The per-agent `try/except` replaces
a failed agent's result with empty data, which the `AgentResults`
argument models: an all-failed run is `emptyAgentResults`. -/

/-- The TTL constant `PARALLEL_CACHE_TTL = 600` seconds. -/
def PARALLEL_CACHE_TTL : Int := 600

/-- The joined results of a collection cycle in which every agent raised:
each `results[agent]` is the empty dict. -/
def emptyAgentResults : AgentResults :=
  { allDevices := [], activeDevices := [], hostToAggregate := [],
    aggregateToHosts := [], aggNames := [], vmCounts := [], gpuInfo := [],
    disabledHosts := [] }

/-- The cache entry point `get_all_data_parallel()` for one caller: serve the cached snapshot
while both cache entries exist and the age is strictly below the TTL,
otherwise run the pipeline on the agents' joined results and overwrite
the cache and its timestamp. -/
def get_all_data_parallel (st : CacheState) (now : Int) (agents : AgentResults) :
    Cache × CacheState :=
  match st.cache, st.timestamp with
  | some snap, some ts =>
    if now - ts < PARALLEL_CACHE_TTL then (snap, st)
    else
      let o := organize_parallel_results agents
      (o, { cache := some o, timestamp := some now })
  | _, _ =>
    let o := organize_parallel_results agents
    (o, { cache := some o, timestamp := some now })

/-! ## Characterisations and concrete instances used by the theorems -/

/-- The four out-of-stock categories. -/
inductive OosReason
  | netbox_non_active
  | compute_disabled
  | in_tempest
  | not_in_openstack
deriving DecidableEq

/-- The reason text the source writes into `outofstock_reason` for each
category. -/
def reasonText (c : OosReason) (d : HostRec) : String :=
  match c with
  | .netbox_non_active => "NetBox Status: " ++ d.status_label
  | .compute_disabled => "OpenStack compute service disabled"
  | .in_tempest => "Testing/staging (tempest aggregate)"
  | .not_in_openstack => "Not allocated to any productive aggregate"

/-- The category the source's `if/elif` chain assigns to one device entry
(`none` for non-GPU devices and for devices it leaves productive):
non-active status first, else disabled compute service, else presence in
a tempest aggregate, else absence from every productive aggregate. -/
def outofstockReason (tempest productive disabled : List String)
    (q : String × HostRec) : Option OosReason :=
  if ¬ q.2.is_gpu_server then none
  else if q.2.status ≠ "active" then some .netbox_non_active
  else if disabled.contains q.1 then some .compute_disabled
  else if tempest.contains q.1 then some .in_tempest
  else if ¬ productive.contains q.1 then some .not_in_openstack
  else none

/-- The category assignment exactly as claim C5 words it, for comparison
with the source's `outofstockReason`: its third rule requires presence
*only* in a tempest-style aggregate, so that a device that is active,
compute-enabled and in a productive aggregate is always excluded. -/
def claimOutofstockReason (tempest productive disabled : List String)
    (q : String × HostRec) : Option OosReason :=
  if ¬ q.2.is_gpu_server then none
  else if q.2.status ≠ "active" then some .netbox_non_active
  else if disabled.contains q.1 then some .compute_disabled
  else if tempest.contains q.1 ∧ ¬ productive.contains q.1 then some .in_tempest
  else if ¬ productive.contains q.1 then some .not_in_openstack
  else none

/-- The devices of a list falling into one category, tagged with its
reason text. -/
def catOf (tempest productive disabled : List String) (c : OosReason)
    (l : List (String × HostRec)) : List HostRec :=
  l.filterMap (fun q =>
    if outofstockReason tempest productive disabled q = some c then
      some { q.2 with outofstock_reason := some (reasonText c q.2) }
    else none)

/-- How many buckets of a snapshot contain a record for a hostname. -/
def bucketsContaining (c : Cache) (h : String) : Nat :=
  (List.filter (fun p => p.2.hosts.any (fun r => r.hostname = h)) c).length

/-- An active, compute-capable GPU device record placed in the
`GPU-X-n3` aggregate. -/
def gpuActiveDevice (h : String) : HostRec :=
  { hostname := h, aggregate := some ("GPU-X-n3"), tenant := "T",
    owner_group := "Investors", nvlinks := false, vm_count := 0,
    gpu_used := 0, gpu_capacity := 8, gpu_usage_ratio := "0/8",
    status := "active", status_label := "Active", is_gpu_server := true,
    outofstock_reason := none }

/-- A consistent joined collection result: aggregate `GPU-X-n3` holds the
active GPU hosts `h1` and `h2`, and `h2`'s compute service is disabled. -/
def disabledHostResults : AgentResults :=
  { allDevices := [("h1", gpuActiveDevice "h1"), ("h2", gpuActiveDevice "h2")]
    activeDevices := [("h1", { tenant := "T", owner_group := "Investors", nvlinks := false }),
                      ("h2", { tenant := "T", owner_group := "Investors", nvlinks := false })]
    hostToAggregate := [("h1", "GPU-X-n3"), ("h2", "GPU-X-n3")]
    aggregateToHosts := [("GPU-X-n3", ["h1", "h2"])]
    aggNames := ["GPU-X-n3"]
    vmCounts := []
    gpuInfo := []
    disabledHosts := ["h2"] }

/-- A snapshot holding host `h1` with aggregate `A` in bucket `GPU-X`,
and no record whose aggregate is `B`. -/
def singleHostCache : Cache :=
  [("GPU-X", { hosts := [{ gpuActiveDevice "h1" with aggregate := some ("A") }],
               totalHosts := some 1, deviceCount := none })]

/-- An arbitrary previously-published snapshot. -/
def previousSnapshot : Cache :=
  [("PREV", { hosts := [], totalHosts := some 1, deviceCount := none })]

/-- The aggregate membership of the C5 counterexample: host `h1` sits in
a tempest aggregate and in a productive aggregate at once. -/
def tempestAndProductive : List (String × List String) :=
  [("agg-tempest", ["h1"]), ("prod", ["h1"])]

/-- The snapshot `singleHostCache` becomes after the failed migration of
`h1` towards the unknown aggregate `B`: the host record is gone. -/
def singleHostCacheAfter : Cache :=
  [("GPU-X", { hosts := [], totalHosts := some 0, deviceCount := none })]

/-! ## Claim theorems -/

/-- C1: `PatchMigration` is not atomic.  On a snapshot whose only record
is `h1` in aggregate `A`, migrating `h1` to an aggregate `B` owned by no
bucket returns `false` — but the snapshot is not left unchanged: `h1`'s
record has already been removed from its bucket and is dropped, so the
call partially mutates the snapshot it reports as untouched. -/
theorem patch_migration_partial_mutation_on_missing_destination :
    update_host_aggregate_in_cache (some singleHostCache) ("h1") ("A") ("B")
      = (false, some singleHostCacheAfter)
    ∧ singleHostCacheAfter ≠ singleHostCache := by decide

/-- C2: hostnames are not unique across buckets.  With the active GPU
hosts `h1`, `h2` in the productive aggregate `GPU-X-n3` and `h2`'s
compute service disabled, the published snapshot keeps `h2` inside the
`GPU-X` bucket's host list and also files it in the out-of-stock bucket
under the compute-disabled reason: `h2` appears in two buckets. -/
theorem disabled_host_appears_in_two_buckets :
    bucketsContaining (organize_parallel_results disabledHostResults) ("h2") = 2
    ∧ (alookup ("GPU-X") (organize_parallel_results disabledHostResults)).map
        (fun b => b.hosts.map (fun r => r.hostname)) = some ["h1", "h2"]
    ∧ (alookup ("outofstock") (organize_parallel_results disabledHostResults)).map
        (fun b => b.hosts.map (fun r => (r.hostname, r.outofstock_reason)))
      = some [("h2", some ("OpenStack compute service disabled"))] := by decide

/-- C3 counterexample: serve-stale-on-error does not hold.  With a
previously published snapshot whose TTL has expired and a refresh in
which every collector failed (all agent results empty), the refresh
overwrites the previous snapshot and the caller no longer receives it. -/
theorem all_sources_failed_overwrites_previous_snapshot :
    (get_all_data_parallel { cache := some previousSnapshot, timestamp := some 0 }
        1000 emptyAgentResults).2.cache ≠ some previousSnapshot
    ∧ (get_all_data_parallel { cache := some previousSnapshot, timestamp := some 0 }
        1000 emptyAgentResults).1 ≠ previousSnapshot := by decide

/-- C3 amended: whenever a refresh actually runs (no cached snapshot, no
timestamp, or age at least the TTL) and every collector has failed, the
pipeline still publishes the snapshot organized from empty per-source
results — overwriting any previous snapshot — and returns it to the
caller; a first-ever call receives this empty-derived snapshot rather
than a not-yet-available signal. -/
theorem all_sources_failed_publishes_empty_snapshot (st : CacheState) (now : Int)
    (h : st.cache = none ∨ st.timestamp = none ∨
      ∀ ts, st.timestamp = some ts → PARALLEL_CACHE_TTL ≤ now - ts) :
    get_all_data_parallel st now emptyAgentResults =
      (organize_parallel_results emptyAgentResults,
       { cache := some (organize_parallel_results emptyAgentResults),
         timestamp := some now }) := by
  obtain ⟨c, ts⟩ := st
  cases c with
  | none => cases ts <;> rfl
  | some snap =>
    cases ts with
    | none => rfl
    | some t =>
      have hle : PARALLEL_CACHE_TTL ≤ now - t := by
        rcases h with h | h | h
        · exact absurd h (by simp)
        · exact absurd h (by simp)
        · exact h t rfl
      simp only [get_all_data_parallel, if_neg (not_lt.mpr hle)]

/-- Witness for the amended C3 theorem at the concrete expired state. -/
theorem all_sources_failed_publishes_empty_snapshot_witness :
    get_all_data_parallel { cache := some previousSnapshot, timestamp := some 0 }
        1000 emptyAgentResults =
      (organize_parallel_results emptyAgentResults,
       { cache := some (organize_parallel_results emptyAgentResults),
         timestamp := some 1000 }) :=
  all_sources_failed_publishes_empty_snapshot _ _
    (Or.inr (Or.inr (fun ts hts => by
      injection hts with e
      subst e
      decide)))

/-- C7: while the cached snapshot's age is strictly below the 600-second
TTL, the call returns the cached snapshot and leaves the cache and its
timestamp untouched; the agents' would-be results are universally
quantified and never consulted, so no collector runs. -/
theorem fresh_cache_serves_snapshot_without_collection (snap : Cache)
    (ts now : Int) (agents : AgentResults) (h : now - ts < PARALLEL_CACHE_TTL) :
    get_all_data_parallel { cache := some snap, timestamp := some ts } now agents
      = (snap, { cache := some snap, timestamp := some ts }) := by
  simp only [get_all_data_parallel, if_pos h]

/-- Witness for the C7 theorem: the same fresh cache is served unchanged
for two different collector outcomes. -/
theorem fresh_cache_serves_snapshot_without_collection_witness :
    get_all_data_parallel { cache := some previousSnapshot, timestamp := some 0 }
        10 disabledHostResults
      = (previousSnapshot, { cache := some previousSnapshot, timestamp := some 0 })
    ∧ get_all_data_parallel { cache := some previousSnapshot, timestamp := some 0 }
        10 emptyAgentResults
      = (previousSnapshot, { cache := some previousSnapshot, timestamp := some 0 }) :=
  ⟨fresh_cache_serves_snapshot_without_collection _ _ _ _ (by decide),
   fresh_cache_serves_snapshot_without_collection _ _ _ _ (by decide)⟩

/-- C5 counterexample: the third precedence rule does not require
presence *only* in a tempest aggregate.  Host `h1` is active, GPU-tagged,
compute-enabled, and sits in a productive aggregate as well as in a
tempest aggregate: the claim then excludes it from out-of-stock, but the
source files it under `in_tempest`. -/
theorem tempest_and_productive_host_still_outofstock :
    ((compute_comprehensive_outofstock_devices [("h1", gpuActiveDevice "h1")]
        tempestAndProductive []).2.1.in_tempest.map (fun r => r.hostname)) = ["h1"]
    ∧ claimOutofstockReason (tempestHosts tempestAndProductive)
        (productiveHosts tempestAndProductive) [] ("h1", gpuActiveDevice "h1")
      = none := by decide

/-- The cache with the `vm_count` of every record for hostname `h` set
to `n` and everything else untouched: the frame `PatchVMCount` is claimed
to establish. -/
def vmCountMapped (h : String) (n : Nat) (c : Cache) : Cache :=
  c.map (fun p => (p.1, { p.2 with hosts := p.2.hosts.map (fun r => if r.hostname = h then { r with vm_count := n } else r) }))

/-- The updated-hosts component of `updateVmHosts` is the map rewriting
only the `vm_count` of the matching records. -/
lemma updateVmHosts_fst (h : String) (n : Nat) (l : List HostRec) :
    (updateVmHosts h n l).1 =
      l.map (fun r => if r.hostname = h then { r with vm_count := n } else r) := by
  induction l with
  | nil => rfl
  | cons r rest ih =>
    by_cases hr : r.hostname = h <;> simp [updateVmHosts, hr, ih]

/-- The counter component of `updateVmHosts` counts the matching
records. -/
lemma updateVmHosts_snd (h : String) (n : Nat) (l : List HostRec) :
    (updateVmHosts h n l).2 = l.countP (fun r => decide (r.hostname = h)) := by
  induction l with
  | nil => rfl
  | cons r rest ih =>
    by_cases hr : r.hostname = h <;>
      simp [updateVmHosts, hr, ih, List.countP_cons]

/-- The bucket fold of `update_host_vm_count_in_cache` computes the
field-preserving map of the whole cache together with the total number of
updated records. -/
lemma vmCountFold_eq (h : String) (n : Nat) (c : Cache) :
    vmCountFold h n c =
      (vmCountMapped h n c,
       (c.map (fun p => p.2.hosts.countP (fun r => decide (r.hostname = h)))).sum) := by
  induction c with
  | nil => rfl
  | cons p rest ih =>
    simp only [vmCountFold, List.foldr_cons] at ih ⊢
    rw [ih]
    simp [vmCountMapped, updateVmHosts_fst, updateVmHosts_snd, Nat.add_comm]

/-- A positive total update count is the same Boolean as some bucket
containing a record for the hostname. -/
lemma vmcount_any (h : String) (c : Cache) :
    (c.any (fun p => p.2.hosts.any (fun r => r.hostname = h)))
      = decide (0 < (c.map
          (fun p => p.2.hosts.countP (fun r => decide (r.hostname = h)))).sum) := by
  induction c with
  | nil => rfl
  | cons p rest ih =>
    simp only [List.any_cons, List.map_cons, List.sum_cons]
    cases hhead : p.2.hosts.any (fun r => r.hostname = h) with
    | true =>
      have hpos : 0 < p.2.hosts.countP (fun r => decide (r.hostname = h)) :=
        List.countP_pos_iff.mpr (List.any_eq_true.mp hhead)
      have hall : 0 < p.2.hosts.countP (fun r => decide (r.hostname = h))
          + (rest.map (fun p => p.2.hosts.countP
              (fun r => decide (r.hostname = h)))).sum := by omega
      simp [hall]
    | false =>
      have hz : p.2.hosts.countP (fun r => decide (r.hostname = h)) = 0 :=
        List.countP_eq_zero.mpr (List.any_eq_false.mp hhead)
      simp [hz, ih]

/-- C8: patch isolation of `update_host_vm_count_in_cache`.  The result
is exactly `vmCountMapped`, the map that replaces the `vm_count` of every
record for the hostname and leaves every other field, every other record,
and every bucket structure untouched, paired with whether any record
matched; and when the hostname is found in no bucket the call returns
`false` with the cache unchanged. -/
theorem patch_vm_count_isolation (c : Cache) (h : String) (n : Nat) :
    update_host_vm_count_in_cache (some c) h n =
      (c.any (fun p => p.2.hosts.any (fun r => r.hostname = h)),
       some (vmCountMapped h n c))
    ∧ ((∀ p ∈ c, ∀ r ∈ p.2.hosts, r.hostname ≠ h) →
        update_host_vm_count_in_cache (some c) h n = (false, some c)) := by
  have main : update_host_vm_count_in_cache (some c) h n =
      (c.any (fun p => p.2.hosts.any (fun r => r.hostname = h)),
       some (vmCountMapped h n c)) := by
    simp only [update_host_vm_count_in_cache, vmCountFold_eq, vmcount_any]
  refine ⟨main, fun hnone => ?_⟩
  rw [main]
  have hany : c.any (fun p => p.2.hosts.any (fun r => r.hostname = h)) = false := by
    simp only [List.any_eq_false, List.any_eq_true, decide_eq_true_eq, not_exists]
    intro p hp r
    rintro ⟨hr, he⟩
    exact hnone p hp r hr he
  have hmap : vmCountMapped h n c = c := by
    unfold vmCountMapped
    have hid : ∀ p ∈ c, (p.1, { p.2 with hosts := p.2.hosts.map (fun r => if r.hostname = h then { r with vm_count := n } else r) }) = p := by
      intro p hp
      have hhosts : p.2.hosts.map (fun r => if r.hostname = h then { r with vm_count := n } else r) = p.2.hosts := by
        have hcong := List.map_congr_left
          (f := fun r => if r.hostname = h then { r with vm_count := n } else r)
          (g := fun r => r) (fun r hr => if_neg (hnone p hp r hr))
        simpa using hcong
      rw [hhosts]
    have hcong := List.map_congr_left hid
    simpa using hcong
  rw [hany, hmap]

/-- Witness for the C8 theorem: the characterisation at a concrete
snapshot, and the no-op at a hostname with no record. -/
theorem patch_vm_count_isolation_witness :
    update_host_vm_count_in_cache (some singleHostCache) ("h1") 3 =
      (true, some (vmCountMapped ("h1") 3 singleHostCache))
    ∧ update_host_vm_count_in_cache (some singleHostCache) ("h9") 3
      = (false, some singleHostCache) :=
  ⟨by
    have hm := (patch_vm_count_isolation singleHostCache ("h1") 3).1
    rw [hm]
    decide,
   (patch_vm_count_isolation singleHostCache ("h9") 3).2 (by decide)⟩

/-- Every record surviving `popFirstMatch` was in the original list. -/
lemma popFirstMatch_mem (h a : String) (l : List HostRec) (r : HostRec)
    (hr : r ∈ (popFirstMatch h a l).2) : r ∈ l := by
  induction l with
  | nil => simp [popFirstMatch] at hr
  | cons x rest ih =>
    by_cases hx : x.hostname = h ∧ x.aggregate = some a
    · rw [popFirstMatch, if_pos hx] at hr
      exact List.mem_cons_of_mem x hr
    · rw [popFirstMatch, if_neg hx] at hr
      rcases List.mem_cons.mp hr with h₁ | h₁
      · exact h₁ ▸ List.mem_cons_self x rest
      · exact List.mem_cons_of_mem x (ih h₁)

/-- Every record of the cache left by the removal phase was a record of
the original cache. -/
lemma removePhase_mem (h a b : String) (c : Cache) (p : String × Bucket)
    (hp : p ∈ (removePhase h a b c).2) (r : HostRec) (hr : r ∈ p.2.hosts) :
    ∃ q ∈ c, r ∈ q.2.hosts := by
  induction c generalizing p with
  | nil => simp [removePhase] at hp
  | cons q₀ rest ih =>
    obtain ⟨g, bu⟩ := q₀
    rw [removePhase] at hp
    rcases hpop : popFirstMatch h a bu.hosts with ⟨m, hs⟩
    cases m with
    | some r₀ =>
      rw [hpop] at hp
      rcases List.mem_cons.mp hp with h₁ | h₁
      · subst h₁
        have : r ∈ bu.hosts := popFirstMatch_mem h a bu.hosts r (by rw [hpop]; exact hr)
        exact ⟨(g, bu), List.mem_cons_self _ _, this⟩
      · obtain ⟨q, hq, hrq⟩ := ih p h₁ hr
        exact ⟨q, List.mem_cons_of_mem _ hq, hrq⟩
    | none =>
      rw [hpop] at hp
      rcases List.mem_cons.mp hp with h₁ | h₁
      · subst h₁
        exact ⟨(g, bu), List.mem_cons_self _ _, hr⟩
      · obtain ⟨q, hq, hrq⟩ := ih p h₁ hr
        exact ⟨q, List.mem_cons_of_mem _ hq, hrq⟩

/-- The insertion phase fails on a cache in which no record's aggregate
is the destination. -/
lemma insertPhase_none (moved : HostRec) (b : String) (c : Cache)
    (hno : ∀ p ∈ c, ∀ r ∈ p.2.hosts, r.aggregate ≠ some b) :
    insertPhase moved b c = none := by
  induction c with
  | nil => rfl
  | cons p rest ih =>
    obtain ⟨g, bu⟩ := p
    have hany : bu.hosts.any (fun r => r.aggregate = some b) = false := by
      simp only [List.any_eq_false, decide_eq_true_eq]
      exact fun r hr => hno (g, bu) (List.mem_cons_self _ _) r hr
    rw [insertPhase, if_neg (by simp [hany]),
      ih (fun q hq r hr => hno q (List.mem_cons_of_mem _ hq) r hr)]

/-- C10: `update_host_aggregate_in_cache` can return `true` only when
some already-cached record carries the destination aggregate; migrating
towards an aggregate that no cached record mentions always returns
`false`, whatever the backends know about that aggregate. -/
theorem patch_migration_requires_cached_destination (c : Cache) (h a b : String)
    (hno : ∀ p ∈ c, ∀ r ∈ p.2.hosts, r.aggregate ≠ some b) :
    (update_host_aggregate_in_cache (some c) h a b).1 = false := by
  simp only [update_host_aggregate_in_cache]
  split
  · rfl
  · rename_i moved c₁ hrem
    split
    · rename_i c₂ hins
      exfalso
      have hnone : insertPhase moved b c₁ = none := by
        apply insertPhase_none
        intro p hp r hr
        obtain ⟨q, hq, hrq⟩ := removePhase_mem h a b c p (by rw [hrem]; exact hp) r hr
        exact hno q hq r hrq
      rw [hnone] at hins
      exact Option.noConfusion hins
    · rfl

/-- Witness for the C10 theorem: on the concrete single-host snapshot no
record mentions `B`, and the migration returns `false`. -/
theorem patch_migration_requires_cached_destination_witness :
    (update_host_aggregate_in_cache (some singleHostCache) ("h1") ("A") ("B")).1
      = false :=
  patch_migration_requires_cached_destination _ _ _ _ (by decide)

/-- On columns other than `outofstock`, the reconciler's fold adds the
`total_hosts` counts and appends the per-column breakdown. -/
lemma validate_foldl (l : Cache) (acc : Int × List (String × Int))
    (hname : ∀ p ∈ l, p.1 ≠ "outofstock") :
    l.foldl validateStep acc =
      (acc.1 + (l.map (fun p => p.2.totalHosts.getD 0)).sum,
       acc.2 ++ l.map (fun p => (p.1, p.2.totalHosts.getD 0))) := by
  induction l generalizing acc with
  | nil => simp
  | cons p rest ih =>
    have hp : p.1 ≠ "outofstock" := hname p (List.mem_cons_self _ _)
    rw [List.foldl_cons,
      ih (validateStep acc p) (fun q hq => hname q (List.mem_cons_of_mem _ hq))]
    simp [validateStep, if_neg hp, add_assoc]

/-- C9: the reconciler checks exactly that the sum of the resource-type
buckets' `total_hosts` plus the out-of-stock `device_count` equals the
number of GPU-tagged devices in the full directory listing, returning the
verdict, both totals and the per-column breakdown as a report; and the
pipeline publishes the organized snapshot for every collector result,
whatever that verdict is — validation never raises and never blocks
publication. -/
theorem validation_reports_accounting_and_never_blocks (gpu : Cache)
    (oos : Bucket) (devs : List (String × HostRec))
    (hname : ∀ p ∈ gpu, p.1 ≠ "outofstock") :
    validate_inventory_accountability (gpu ++ [("outofstock", oos)]) devs =
      (decide (((devs.filter (fun p => p.2.is_gpu_server)).length : Int) =
         (gpu.map (fun p => p.2.totalHosts.getD 0)).sum
           + ((oos.deviceCount.getD 0 : Nat) : Int)),
       (devs.filter (fun p => p.2.is_gpu_server)).length,
       (gpu.map (fun p => p.2.totalHosts.getD 0)).sum
         + ((oos.deviceCount.getD 0 : Nat) : Int),
       gpu.map (fun p => (p.1, p.2.totalHosts.getD 0)) ++
         [("out_of_stock", ((oos.deviceCount.getD 0 : Nat) : Int))])
    ∧ (∀ r : AgentResults,
        (get_all_data_parallel { cache := none, timestamp := none } 0 r).2.cache
          = some (organize_parallel_results r)) := by
  constructor
  · simp only [validate_inventory_accountability, List.foldl_append,
      validate_foldl gpu (0, []) hname]
    simp [validateStep]
  · intro r
    rfl

/-- Witness for the C9 theorem: a concrete mismatching snapshot (2 + 1
bucket hosts against 2 directory GPU devices) yields a `false` verdict
with the full report, and nothing more. -/
theorem validation_reports_accounting_witness :
    validate_inventory_accountability
        ([("GPU-X", { hosts := [], totalHosts := some 2, deviceCount := none })]
          ++ [("outofstock", { hosts := [], totalHosts := none, deviceCount := some 1 })])
        disabledHostResults.allDevices
      = (false, 2, 3, [("GPU-X", 2), ("out_of_stock", 1)]) :=
  ((validation_reports_accounting_and_never_blocks
      [("GPU-X", { hosts := [], totalHosts := some 2, deviceCount := none })]
      { hosts := [], totalHosts := none, deviceCount := some 1 }
      disabledHostResults.allDevices (by decide)).1).trans (by decide)

/-- The categorisation fold appends to each category exactly the devices
whose `outofstockReason` is that category, tagged with its reason text. -/
lemma oosStep_foldl (t p dis : List String) (l : List (String × HostRec))
    (acc : OosCats) :
    l.foldl (oosStep t p dis) acc =
      { netbox_non_active :=
          acc.netbox_non_active ++ catOf t p dis .netbox_non_active l,
        not_in_openstack :=
          acc.not_in_openstack ++ catOf t p dis .not_in_openstack l,
        in_tempest := acc.in_tempest ++ catOf t p dis .in_tempest l,
        compute_disabled :=
          acc.compute_disabled ++ catOf t p dis .compute_disabled l } := by
  induction l generalizing acc with
  | nil => simp [catOf]
  | cons q rest ih =>
    rw [List.foldl_cons, ih (oosStep t p dis acc q)]
    by_cases h1 : q.2.is_gpu_server
    · by_cases h2 : q.2.status = "active"
      · by_cases h3 : q.1 ∈ dis
        · simp [oosStep, catOf, outofstockReason, reasonText, h1, h2, h3,
            List.filterMap_cons, List.append_assoc]
        · by_cases h4 : q.1 ∈ t
          · simp [oosStep, catOf, outofstockReason, reasonText, h1, h2, h3, h4,
              List.filterMap_cons, List.append_assoc]
          · by_cases h5 : q.1 ∈ p
            · simp [oosStep, catOf, outofstockReason, reasonText, h1, h2, h3, h4,
                h5, List.filterMap_cons, List.append_assoc]
            · simp [oosStep, catOf, outofstockReason, reasonText, h1, h2, h3, h4,
                h5, List.filterMap_cons, List.append_assoc]
      · simp [oosStep, catOf, outofstockReason, reasonText, h1, h2,
          List.filterMap_cons, List.append_assoc]
    · simp [oosStep, catOf, outofstockReason, reasonText, h1,
        List.filterMap_cons, List.append_assoc]

/-- C5 (amended): every GPU-tagged directory device receives at most one
out-of-stock category, decided by the fixed precedence chain of
`outofstockReason` — non-active status, else disabled compute service,
else presence in a tempest aggregate (even when the host is also in a
productive aggregate), else absence from every productive aggregate —
with its category's reason text; a device that is active,
compute-enabled, in a productive aggregate and in no tempest aggregate is
excluded.  The categories, their concatenation (in the category dict's
order) and the counts are exactly the per-category filters. -/
theorem outofstock_reason_precedence (allDevices : List (String × HostRec))
    (aggregateToHosts : List (String × List String)) (disabledHosts : List String) :
    compute_comprehensive_outofstock_devices allDevices aggregateToHosts disabledHosts =
      (catOf (tempestHosts aggregateToHosts) (productiveHosts aggregateToHosts)
          disabledHosts .netbox_non_active allDevices
        ++ catOf (tempestHosts aggregateToHosts) (productiveHosts aggregateToHosts)
          disabledHosts .not_in_openstack allDevices
        ++ catOf (tempestHosts aggregateToHosts) (productiveHosts aggregateToHosts)
          disabledHosts .in_tempest allDevices
        ++ catOf (tempestHosts aggregateToHosts) (productiveHosts aggregateToHosts)
          disabledHosts .compute_disabled allDevices,
       { netbox_non_active := catOf (tempestHosts aggregateToHosts)
           (productiveHosts aggregateToHosts) disabledHosts .netbox_non_active allDevices,
         not_in_openstack := catOf (tempestHosts aggregateToHosts)
           (productiveHosts aggregateToHosts) disabledHosts .not_in_openstack allDevices,
         in_tempest := catOf (tempestHosts aggregateToHosts)
           (productiveHosts aggregateToHosts) disabledHosts .in_tempest allDevices,
         compute_disabled := catOf (tempestHosts aggregateToHosts)
           (productiveHosts aggregateToHosts) disabledHosts .compute_disabled allDevices },
       [("netbox_non_active", (catOf (tempestHosts aggregateToHosts)
           (productiveHosts aggregateToHosts) disabledHosts .netbox_non_active allDevices).length),
        ("not_in_openstack", (catOf (tempestHosts aggregateToHosts)
           (productiveHosts aggregateToHosts) disabledHosts .not_in_openstack allDevices).length),
        ("in_tempest", (catOf (tempestHosts aggregateToHosts)
           (productiveHosts aggregateToHosts) disabledHosts .in_tempest allDevices).length),
        ("compute_disabled", (catOf (tempestHosts aggregateToHosts)
           (productiveHosts aggregateToHosts) disabledHosts .compute_disabled allDevices).length)]) := by
  simp only [compute_comprehensive_outofstock_devices,
    oosStep_foldl (tempestHosts aggregateToHosts) (productiveHosts aggregateToHosts)
      disabledHosts allDevices
      { netbox_non_active := [], not_in_openstack := [], in_tempest := [],
        compute_disabled := [] }]
  simp

/-- Folds with pointwise-equal step functions agree. -/
lemma foldl_congr_fun {α β : Type} {f g : β → α → β} (l : List α) (b : β)
    (h : ∀ acc a, f acc a = g acc a) : l.foldl f b = l.foldl g b := by
  induction l generalizing b with
  | nil => rfl
  | cons a rest ih => rw [List.foldl_cons, List.foldl_cons, h, ih]

/-- A host detail only depends on the per-host maps through lookups. -/
lemma mkHostDetail_congr (hta : List (String × String))
    (acd : List (String × TenantInfo)) (vm vm₂ : List (String × Nat))
    (gi gi₂ : List (String × GpuInfo))
    (hvm : ∀ x, alookup x vm = alookup x vm₂)
    (hgi : ∀ x, alookup x gi = alookup x gi₂) (x : String) :
    mkHostDetail hta acd vm gi x = mkHostDetail hta acd vm₂ gi₂ x := by
  unfold mkHostDetail alookupD
  rw [hvm, hgi]

/-- C4: classification is a pure function of the joined inputs, and the
only concurrently-arriving data — the per-host VM counts, the per-host
GPU info and the disabled-host set — influence the snapshot only through
keyed lookups and membership, so two collection rounds whose sources
join to the same data (however their per-host results were ordered by
arrival) publish identical snapshots: every host gets the same bucket,
pool placement and out-of-stock reason. -/
theorem organize_arrival_order_independent (r s : AgentResults)
    (h1 : r.allDevices = s.allDevices)
    (h2 : r.activeDevices = s.activeDevices)
    (h3 : r.hostToAggregate = s.hostToAggregate)
    (h4 : r.aggregateToHosts = s.aggregateToHosts)
    (h5 : r.aggNames = s.aggNames)
    (h6 : ∀ x, alookup x r.vmCounts = alookup x s.vmCounts)
    (h7 : ∀ x, alookup x r.gpuInfo = alookup x s.gpuInfo)
    (h8 : ∀ x, r.disabledHosts.contains x = s.disabledHosts.contains x) :
    organize_parallel_results r = organize_parallel_results s := by
  have hdetail : ∀ x, mkHostDetail r.hostToAggregate r.activeDevices r.vmCounts r.gpuInfo x
      = mkHostDetail s.hostToAggregate s.activeDevices s.vmCounts s.gpuInfo x := by
    intro x
    rw [h2, h3]
    exact mkHostDetail_congr _ _ _ _ _ _ h6 h7 x
  have hbuckets : organizedGpuBuckets r = organizedGpuBuckets s := by
    unfold organizedGpuBuckets
    rw [h5, h4]
    apply List.map_congr_left
    intro p hp
    have hhosts : (configAllHosts s.aggregateToHosts p.2).map
        (mkHostDetail r.hostToAggregate r.activeDevices r.vmCounts r.gpuInfo)
        = (configAllHosts s.aggregateToHosts p.2).map
        (mkHostDetail s.hostToAggregate s.activeDevices s.vmCounts s.gpuInfo) :=
      List.map_congr_left (fun x _ => hdetail x)
    rw [hhosts]
  have hstep : ∀ acc q, oosStep (tempestHosts s.aggregateToHosts)
      (productiveHosts s.aggregateToHosts) r.disabledHosts acc q
      = oosStep (tempestHosts s.aggregateToHosts)
        (productiveHosts s.aggregateToHosts) s.disabledHosts acc q := by
    intro acc q
    unfold oosStep
    rw [h8 q.1]
  have hoos : outofstockBucket r = outofstockBucket s := by
    unfold outofstockBucket
    rw [h1, h4]
    have hfold := foldl_congr_fun (l := s.allDevices)
      (b := { netbox_non_active := [], not_in_openstack := [], in_tempest := [],
              compute_disabled := [] }) hstep
    simp only [compute_comprehensive_outofstock_devices, hfold]
  simp only [organize_parallel_results]
  rw [hbuckets, hoos]

/-- The joined collection results ordered one way: VM counts arrived as
`h1` then `h2`, the disabled hosts as `h2` then `h9`. -/
def orderedResultsA : AgentResults :=
  { disabledHostResults with vmCounts := [("h1", 1), ("h2", 2)],
                             disabledHosts := ["h2", "h9"] }

/-- The same joined collection results with the opposite arrival order of
the per-host data. -/
def orderedResultsB : AgentResults :=
  { disabledHostResults with vmCounts := [("h2", 2), ("h1", 1)],
                             disabledHosts := ["h9", "h2"] }

/-- Witness for the C4 theorem: the two arrival orders publish the same
snapshot. -/
theorem organize_arrival_order_independent_witness :
    organize_parallel_results orderedResultsA = organize_parallel_results orderedResultsB :=
  organize_arrival_order_independent orderedResultsA orderedResultsB rfl rfl rfl rfl rfl
    (by
      intro x
      by_cases e1 : x = "h1"
      · subst e1; decide
      · by_cases e2 : x = "h2"
        · subst e2; decide
        · simp [orderedResultsA, orderedResultsB, alookup, Ne.symm e1, Ne.symm e2])
    (fun _ => rfl)
    (by
      intro x
      by_cases e2 : x = "h2"
      · subst e2; decide
      · by_cases e9 : x = "h9"
        · subst e9; decide
        · simp [orderedResultsA, orderedResultsB, e2, e9])

end SpotManager
